import Mathlib

set_option maxRecDepth 16384

/-!
Shallow embedding of the transcription service core
(`src/constants.py`, `src/transcription_service.py`).

Python strings are modelled as Lean `String`; Python `Optional[T]` as
`Option T`; raised `HTTPException(status_code, detail)` as the `error`
side of `Except HTTPException`.  Environment variables that feed the
constants registry are modelled as explicit `Option String` parameters
(`none` = variable unset, `some v` = variable set to `v`).
-/

namespace Transcribe

/-- `constants.Provider`: closed enumeration of the two upstream vendors. -/
inductive Provider
  | groq
  | openai
deriving DecidableEq

/-- `Provider.value` (the string payload of each enum member). -/
def Provider.value : Provider → String
  | .groq => "groq"
  | .openai => "openai"

/-- `constants.GROQ_MODELS`. -/
def GROQ_MODELS : List String :=
  ["whisper-large-v3", "whisper-large-v3-turbo", "distil-whisper-large-v3-en"]

/-- `constants.OPENAI_MODELS`. -/
def OPENAI_MODELS : List String := ["whisper-1"]

/-- `constants.AVAILABLE_MODELS`, the per-provider model catalog. -/
def AVAILABLE_MODELS : Provider → List String
  | .groq => GROQ_MODELS
  | .openai => OPENAI_MODELS

/-- `constants.DEFAULT_MODELS`: per-provider default model, taken from the
environment variables `DEFAULT_GROQ_MODEL` / `DEFAULT_OPENAI_MODEL` when set
(`os.getenv(var, fallback)`), else the built-in fallback. -/
def DEFAULT_MODELS (envGroqModel envOpenaiModel : Option String) :
    Provider → String
  | .groq => envGroqModel.getD "whisper-large-v3-turbo"
  | .openai => envOpenaiModel.getD "whisper-1"

/-- `constants.SUPPORTED_AUDIO_FORMATS`. -/
def SUPPORTED_AUDIO_FORMATS : List String :=
  ["mp3", "mp4", "mpeg", "mpga", "m4a", "wav", "webm", "flac", "ogg", "opus"]

/-- `constants.MAX_FILE_SIZE` (25 MiB, in bytes). -/
def MAX_FILE_SIZE : Nat := 25 * 1024 * 1024

/-- `constants.SUPPORTED_LANGUAGES`: insertion-ordered code ↦ name table. -/
def SUPPORTED_LANGUAGES : List (String × String) :=
  [("af", "afrikaans"), ("ar", "arabic"), ("hy", "armenian"),
   ("az", "azerbaijani"), ("be", "belarusian"), ("bs", "bosnian"),
   ("bg", "bulgarian"), ("ca", "catalan"), ("zh", "chinese"),
   ("hr", "croatian"), ("cs", "czech"), ("da", "danish"),
   ("nl", "dutch"), ("en", "english"), ("et", "estonian"),
   ("fi", "finnish"), ("fr", "french"), ("gl", "galician"),
   ("de", "german"), ("el", "greek"), ("he", "hebrew"),
   ("hi", "hindi"), ("hu", "hungarian"), ("is", "icelandic"),
   ("id", "indonesian"), ("it", "italian"), ("ja", "japanese"),
   ("kn", "kannada"), ("kk", "kazakh"), ("ko", "korean"),
   ("lv", "latvian"), ("lt", "lithuanian"), ("mk", "macedonian"),
   ("ms", "malay"), ("mr", "marathi"), ("mi", "maori"),
   ("ne", "nepali"), ("no", "norwegian"), ("fa", "persian"),
   ("pl", "polish"), ("pt", "portuguese"), ("ro", "romanian"),
   ("ru", "russian"), ("sr", "serbian"), ("sk", "slovak"),
   ("sl", "slovenian"), ("es", "spanish"), ("sw", "swahili"),
   ("sv", "swedish"), ("tl", "tagalog"), ("ta", "tamil"),
   ("th", "thai"), ("tr", "turkish"), ("uk", "ukrainian"),
   ("ur", "urdu"), ("vi", "vietnamese"), ("cy", "welsh")]

/-- The key list of a language registry (Python `dict.keys()` order). -/
def langKeys (registry : List (String × String)) : List String :=
  registry.map Prod.fst

/-- `constants.DEFAULT_LANGUAGE = os.getenv("DEFAULT_LANGUAGE", "auto")`. -/
def DEFAULT_LANGUAGE (envLang : Option String) : String :=
  envLang.getD "auto"

/-- A raised FastAPI `HTTPException(status_code=..., detail=...)`. -/
structure HTTPError where
  status : Nat
  detail : String
deriving DecidableEq

/-- A FastAPI `UploadFile` as seen by the service: `filename` and `size`
are optional attributes, `content` is what `await file.read()` yields. -/
structure UploadFile where
  filename : Option String
  size : Option Nat
  content : List Nat
deriving DecidableEq

/-- Python `str.split(sep)` for a one-character separator, on the
character list of the string.  `splitOnChar c l` is never empty. -/
def splitOnChar (c : Char) : List Char → List (List Char)
  | [] => [[]]
  | x :: xs =>
    if x = c then [] :: splitOnChar c xs
    else
      match splitOnChar c xs with
      | [] => [[x]]
      | y :: ys => (x :: y) :: ys

/-- Python `str.lower()` (ASCII case mapping suffices for this codebase). -/
def strLower (s : String) : String :=
  String.mk (s.data.map Char.toLower)

/-- `file.filename.split(".")[-1].lower()` from `_validate_file`
(`transcription_service.py:62`). -/
def file_extension (filename : String) : String :=
  strLower (String.mk ((splitOnChar '.' filename.data).getLastD []))

/-- One-decimal rendering of `n` bytes in MiB (models the `:.1f`
formatting of `size_mb`; rounding to nearest, half away from zero). -/
def sizeMBOneDecimal (n : Nat) : String :=
  let d := (n * 10 + 524288) / 1048576
  toString (d / 10) ++ "." ++ toString (d % 10)

/-- The oversize-file error detail of `_validate_file`. -/
def sizeErrorDetail (n : Nat) : String :=
  "Arquivo muito grande (" ++ sizeMBOneDecimal n ++ "MB). Tamanho máximo: "
    ++ toString (MAX_FILE_SIZE / (1024 * 1024)) ++ "MB"

/-- The unsupported-format error detail of `_validate_file`. -/
def formatErrorDetail (ext : String) : String :=
  "Formato \x27" ++ ext ++ "\x27 não suportado. Formatos aceitos: "
    ++ String.intercalate ", " SUPPORTED_AUDIO_FORMATS

/-- `TranscriptionService._validate_file` (`transcription_service.py:54-75`):
reject missing/empty filename, unsupported extension, and a truthy declared
size greater than `MAX_FILE_SIZE` (Python `if file.size and file.size > MAX`:
a `None` or `0` size skips the size check). -/
def validate_file (file : UploadFile) : Except HTTPError Unit :=
  match file.filename with
  | none => .error ⟨400, "Arquivo sem nome"⟩
  | some fn =>
    if fn = "" then .error ⟨400, "Arquivo sem nome"⟩
    else
      let ext := file_extension fn
      if ext ∈ SUPPORTED_AUDIO_FORMATS then
        match file.size with
        | none => .ok ()
        | some n =>
          if n ≠ 0 ∧ MAX_FILE_SIZE < n then .error ⟨400, sizeErrorDetail n⟩
          else .ok ()
      else .error ⟨400, formatErrorDetail ext⟩

/-- The unsupported-language error detail of `_validate_language`
(`transcription_service.py:86-87`): first ten registry codes, an
ellipsis, and the literal `auto` hint. -/
def langErrorDetail (registry : List (String × String)) (code : String) :
    String :=
  "Código de idioma \x27" ++ code ++ "\x27 não suportado. Códigos suportados: "
    ++ (String.intercalate ", " ((langKeys registry).take 10) ++ "...")
    ++ ", \x27auto\x27"

/-- `TranscriptionService._validate_language`
(`transcription_service.py:77-93`).  `language or DEFAULT_LANGUAGE`: a
`None` or empty-string argument falls back to the default; `"auto"`
short-circuits before the registry lookup. -/
def validate_language (registry : List (String × String))
    (defaultLang : String) (language : Option String) :
    Except HTTPError String :=
  let selected_language :=
    match language with
    | none => defaultLang
    | some l => if l = "" then defaultLang else l
  if selected_language = "auto" then .ok selected_language
  else if selected_language ∈ langKeys registry then .ok selected_language
  else .error ⟨400, langErrorDetail registry selected_language⟩

/-- The unavailable-model error detail of `_validate_provider_and_model`. -/
def modelErrorDetail (provider : Provider) (m : String) : String :=
  "Modelo \x27" ++ m ++ "\x27 não disponível para " ++ provider.value
    ++ ". Modelos disponíveis: "
    ++ String.intercalate ", " (AVAILABLE_MODELS provider)

/-- The effective model of `_validate_provider_and_model`
(`transcription_service.py:112`): `model or DEFAULT_MODELS[provider]`
(a `None` or empty-string argument falls back to the default). -/
def effective_model (envGroqModel envOpenaiModel : Option String)
    (provider : Provider) (model : Option String) : String :=
  match model with
  | none => DEFAULT_MODELS envGroqModel envOpenaiModel provider
  | some m =>
    if m = "" then DEFAULT_MODELS envGroqModel envOpenaiModel provider else m

/-- `TranscriptionService._validate_provider_and_model`
(`transcription_service.py:95-123`).  The booleans state whether the
corresponding client handle is non-`None`. -/
def validate_provider_and_model (groq_client openai_client : Bool)
    (envGroqModel envOpenaiModel : Option String)
    (provider : Provider) (model : Option String) :
    Except HTTPError String :=
  if provider = .groq ∧ groq_client = false then
    .error ⟨503, "Groq API não configurada. Verifique a variável GROQ_API_KEY"⟩
  else if provider = .openai ∧ openai_client = false then
    .error ⟨503, "OpenAI API não configurada. Verifique a variável OPENAI_API_KEY"⟩
  else
    let selected_model := effective_model envGroqModel envOpenaiModel provider model
    if selected_model ∈ AVAILABLE_MODELS provider then .ok selected_model
    else .error ⟨400, modelErrorDetail provider selected_model⟩

/-- An upstream transcription response: either a bare string, or a
structured object that may expose a `.text` attribute.  `rep` models the
Python `str(transcription)` rendering of the object. -/
inductive UpstreamResp
  | str (s : String)
  | obj (text : Option String) (rep : String)
deriving DecidableEq

/-- The outcome of the provider network call, injected into the model:
`error msg` means `...audio.transcriptions.create(...)` raised an
exception whose `str` is `msg`. -/
def UpstreamCall := Except String UpstreamResp

/-- The `transcription_params` dict built by `_transcribe_with_groq`
and `_transcribe_with_openai` (minus the file handle). -/
structure TranscriptionParams where
  model : String
  response_format : String
  language : Option String
deriving DecidableEq

/-- Payload construction of `_transcribe_with_groq`
(`transcription_service.py:134-142`): the `language` key is added only
when the resolved language is not `"auto"`. -/
def groq_transcription_params (model language : String) : TranscriptionParams :=
  { model := model
    response_format := "text"
    language := if language ≠ "auto" then some language else none }

/-- Payload construction of `_transcribe_with_openai`
(`transcription_service.py:176-184`). -/
def openai_transcription_params (model language : String) : TranscriptionParams :=
  { model := model
    response_format := "text"
    language := if language ≠ "auto" then some language else none }

/-- `TranscriptionService._transcribe_with_groq`
(`transcription_service.py:125-165`).  Normalization: a bare string is
returned as is; `transcription.text` when the attribute exists; else the
`str(transcription)` fallback.  Any exception of the call is re-raised
as status 500. -/
def transcribe_with_groq (groq_client : Bool) (model language : String)
    (call : UpstreamCall) : Except HTTPError String :=
  if groq_client = false then
    .error ⟨503, "Groq client não inicializado"⟩
  else
    let _params := groq_transcription_params model language
    match call with
    | .error e => .error ⟨500, "Erro na transcrição com Groq: " ++ e⟩
    | .ok transcription =>
      match transcription with
      | .str s => .ok s
      | .obj (some t) _ => .ok t
      | .obj none rep => .ok rep

/-- `TranscriptionService._transcribe_with_openai`
(`transcription_service.py:167-206`).  Normalization: a bare string, or
`transcription.text`; an object without `.text` raises `AttributeError`,
which the routine's handler re-raises as status 500. -/
def transcribe_with_openai (openai_client : Bool) (model language : String)
    (call : UpstreamCall) : Except HTTPError String :=
  if openai_client = false then
    .error ⟨503, "OpenAI client não inicializado"⟩
  else
    let _params := openai_transcription_params model language
    match call with
    | .error e => .error ⟨500, "Erro na transcrição com OpenAI: " ++ e⟩
    | .ok transcription =>
      match transcription with
      | .str s => .ok s
      | .obj (some t) _ => .ok t
      | .obj none _ =>
        .error ⟨500, "Erro na transcrição com OpenAI: \x27Transcription\x27 object has no attribute \x27text\x27"⟩

/-- Python whitespace for `str.strip()` (space, tab, newline, carriage
return, vertical tab, form feed). -/
def isPyWhitespace (c : Char) : Bool :=
  c = ' ' || c = '\t' || c = '\n' || c = '\r' || c = '\x0b' || c = '\x0c'

/-- Python `str.strip()`: drop leading and trailing whitespace. -/
def strip (s : String) : String :=
  String.mk
    (((s.data.dropWhile isPyWhitespace).reverse.dropWhile isPyWhitespace).reverse)

/-- Sentinel substituted for an empty transcription
(`transcription_service.py:271`). -/
def NO_CONTENT_SENTINEL : String := "[Nenhum conteúdo detectado no áudio]"

/-- Post-processing of the upstream text (`transcription_service.py:269-274`):
`if not transcription or not transcription.strip()` substitutes the
sentinel; the result field is the `.strip()` of what remains. -/
def post_process (transcription : String) : String :=
  let t :=
    if transcription = "" ∨ strip transcription = "" then NO_CONTENT_SENTINEL
    else transcription
  strip t

/-- The `result` dict returned by `transcribe_audio`
(`transcription_service.py:273-279`). -/
structure TranscriptionResult where
  transcription : String
  provider : String
  model : String
  language : String
  filename : String
deriving DecidableEq

deriving instance DecidableEq for Except

/-- Observable outcome of the body of `transcribe_audio` (everything
before the `finally` block): the returned value or raised exception,
whether the provider network call was attempted, and whether a scratch
file was created. -/
structure BodyOut where
  result : Except HTTPError TranscriptionResult
  dispatched : Bool
  scratch_created : Bool
deriving DecidableEq

/-- Full observable outcome of `transcribe_audio`, after the `finally`
block: `scratch_exists` is whether the scratch file is still on disk. -/
structure Trace where
  result : Except HTTPError TranscriptionResult
  dispatched : Bool
  scratch_created : Bool
  scratch_exists : Bool
deriving DecidableEq

/-- `file.filename or "arquivo_sem_nome"` (`transcription_service.py:278`). -/
def filename_or_fallback (file : UploadFile) : String :=
  match file.filename with
  | none => "arquivo_sem_nome"
  | some fn => if fn = "" then "arquivo_sem_nome" else fn

/-- Body of `TranscriptionService.transcribe_audio`
(`transcription_service.py:208-291`): resolve the provider, run the three
validators in order, create the scratch file, reject empty content (the
inner handler wraps the raise as a 400 "Erro ao processar arquivo"),
dispatch on the provider tag, post-process, and wrap the envelope. -/
def transcribe_body (groq_client openai_client : Bool)
    (envGroqModel envOpenaiModel envLang : Option String)
    (default_provider : Provider) (file : UploadFile)
    (provider : Option Provider) (model : Option String)
    (language : Option String) (call : UpstreamCall) : BodyOut :=
  let selected_provider := provider.getD default_provider
  match validate_file file with
  | .error e => ⟨.error e, false, false⟩
  | .ok _ =>
  match validate_provider_and_model groq_client openai_client
      envGroqModel envOpenaiModel selected_provider model with
  | .error e => ⟨.error e, false, false⟩
  | .ok selected_model =>
  match validate_language SUPPORTED_LANGUAGES (DEFAULT_LANGUAGE envLang)
      language with
  | .error e => ⟨.error e, false, false⟩
  | .ok selected_language =>
    -- tempfile.NamedTemporaryFile(delete=False): scratch file now exists
    if file.content = [] then
      ⟨.error ⟨400, "Erro ao processar arquivo: 400: Arquivo vazio"⟩,
       false, true⟩
    else
      let outcome :=
        if selected_provider = .groq then
          transcribe_with_groq groq_client selected_model selected_language call
        else
          transcribe_with_openai openai_client selected_model selected_language call
      match outcome with
      | .error e => ⟨.error e, true, true⟩
      | .ok transcription =>
        ⟨.ok
          { transcription := post_process transcription
            provider := selected_provider.value
            model := selected_model
            language := selected_language
            filename := filename_or_fallback file },
         true, true⟩

/-- `TranscriptionService.transcribe_audio` including its `finally` block
(`transcription_service.py:293-302`): if a scratch file was created it
still exists, so `os.unlink` is attempted; a failing unlink
(`unlink_ok = false`) leaves the file behind, is logged, and the body's
outcome is returned unchanged. -/
def transcribe_audio (groq_client openai_client : Bool)
    (envGroqModel envOpenaiModel envLang : Option String)
    (default_provider : Provider) (file : UploadFile)
    (provider : Option Provider) (model : Option String)
    (language : Option String) (call : UpstreamCall)
    (unlink_ok : Bool) : Trace :=
  let b := transcribe_body groq_client openai_client envGroqModel
    envOpenaiModel envLang default_provider file provider model language call
  { result := b.result
    dispatched := b.dispatched
    scratch_created := b.scratch_created
    scratch_exists := b.scratch_created && !unlink_ok }

/-- Whether the resolved provider's client handle is configured
(`self.groq_client` / `self.openai_client` non-`None`). -/
def clientPresent (groq_client openai_client : Bool) : Provider → Bool
  | .groq => groq_client
  | .openai => openai_client

/-- The status code of an error outcome, `none` on success. -/
def errStatus {α : Type} : Except HTTPError α → Option Nat
  | .error e => some e.status
  | .ok _ => none

/-! ## Claim C1 -/

/-- C1 (counterexample): `DEFAULT_MODELS` stores an environment override
unvalidated, so with `DEFAULT_GROQ_MODEL=nonexistent-model` the default
model for groq is not a member of the groq catalog. -/
theorem c1_override_escapes_catalog :
    DEFAULT_MODELS (some "nonexistent-model") none Provider.groq ∉
      AVAILABLE_MODELS Provider.groq := by
  decide

/-- C1 (amended): with no environment override, the built-in default
model of every provider is a member of that provider's catalog; an
override, when set, is used verbatim without validation. -/
theorem c1_builtin_default_in_catalog (p : Provider) (m : String) :
    DEFAULT_MODELS none none p ∈ AVAILABLE_MODELS p ∧
    DEFAULT_MODELS (some m) (some m) p = m := by
  cases p <;> exact ⟨by decide, rfl⟩

/-! ## Claim C2 -/

/-- C2 (counterexample): in `_transcribe_with_groq` a response with
neither the bare-string nor the `.text` shape does not raise; it falls
back to `str(transcription)` and succeeds. -/
theorem c2_groq_fallback_is_not_an_error :
    transcribe_with_groq true "whisper-large-v3" "auto"
        (Except.ok (UpstreamResp.obj none "<Transcription object>")) =
      Except.ok "<Transcription object>" ∧
    errStatus (transcribe_with_groq true "whisper-large-v3" "auto"
        (Except.ok (UpstreamResp.obj none "<Transcription object>"))) = none := by
  exact ⟨rfl, rfl⟩

/-- C2 (amended): both routines normalize a bare string to itself and an
object exposing `.text` to that member; on a response with neither shape
the OpenAI routine raises status 500, while the Groq routine falls back
to the `str(transcription)` rendering and succeeds. -/
theorem c2_normalization (model language s rep : String) :
    transcribe_with_groq true model language (Except.ok (.str s)) = Except.ok s ∧
    transcribe_with_groq true model language (Except.ok (.obj (some s) rep)) =
      Except.ok s ∧
    transcribe_with_groq true model language (Except.ok (.obj none rep)) =
      Except.ok rep ∧
    transcribe_with_openai true model language (Except.ok (.str s)) = Except.ok s ∧
    transcribe_with_openai true model language (Except.ok (.obj (some s) rep)) =
      Except.ok s ∧
    errStatus (transcribe_with_openai true model language
      (Except.ok (.obj none rep))) = some 500 := by
  exact ⟨rfl, rfl, rfl, rfl, rfl, rfl⟩

/-! ## Claim C4 -/

/-- An infix of a list is an infix of any left-extension of it. -/
theorem isInfix_append_left {α : Type} (s : List α) {x t : List α}
    (h : x <:+: t) : x <:+: s ++ t :=
  h.trans (List.IsSuffix.isInfix (List.suffix_append s t))

/-- C4: language resolution falls back to the registry default (itself
defaulting to `"auto"`); `"auto"` always passes regardless of registry
contents; any other non-empty value that is not a registry key fails
with status 400 whose message contains the first ten supported codes and
`"auto"`. -/
theorem c4_language_validation (registry : List (String × String))
    (d lang : String) :
    DEFAULT_LANGUAGE none = "auto" ∧
    validate_language registry d (some "auto") = Except.ok "auto" ∧
    validate_language registry d none = validate_language registry d (some d) ∧
    (lang ≠ "" → lang ≠ "auto" →
      (lang ∈ langKeys SUPPORTED_LANGUAGES →
        validate_language SUPPORTED_LANGUAGES d (some lang) = Except.ok lang) ∧
      (lang ∉ langKeys SUPPORTED_LANGUAGES →
        validate_language SUPPORTED_LANGUAGES d (some lang) =
          Except.error ⟨400, langErrorDetail SUPPORTED_LANGUAGES lang⟩ ∧
        "auto".data <:+: (langErrorDetail SUPPORTED_LANGUAGES lang).data ∧
        ∀ c ∈ (langKeys SUPPORTED_LANGUAGES).take 10,
          c.data <:+: (langErrorDetail SUPPORTED_LANGUAGES lang).data)) := by
  refine ⟨rfl, by simp [validate_language], ?_, ?_⟩
  · by_cases hd : d = "" <;> simp [validate_language, hd]
  · intro h1 h2
    have hrw : (langErrorDetail SUPPORTED_LANGUAGES lang).data =
        ("Código de idioma \x27" ++ lang).data ++
        ("\x27 não suportado. Códigos suportados: "
          ++ (String.intercalate ", " ((langKeys SUPPORTED_LANGUAGES).take 10)
            ++ "...")
          ++ ", \x27auto\x27").data := by
      simp [langErrorDetail, List.append_assoc]
    constructor
    · intro hmem
      simp [validate_language, h1, h2, hmem]
    · intro hnm
      refine ⟨by simp [validate_language, h1, h2, hnm], ?_, ?_⟩
      · rw [hrw]
        exact isInfix_append_left _ (by decide)
      · have hkeys : (langKeys SUPPORTED_LANGUAGES).take 10 =
            ["af", "ar", "hy", "az", "be", "bs", "bg", "ca", "zh", "hr"] := by
          decide
        rw [hkeys]
        intro c hc
        rw [hrw]
        refine isInfix_append_left _ ?_
        fin_cases hc <;> decide

/-- C4 (witness). -/
theorem c4_language_validation_witness :
    validate_language [] "auto" (some "auto") = Except.ok "auto" ∧
    validate_language SUPPORTED_LANGUAGES "auto" (some "fr") = Except.ok "fr" ∧
    validate_language SUPPORTED_LANGUAGES "auto" (some "qq") =
      Except.error ⟨400, langErrorDetail SUPPORTED_LANGUAGES "qq"⟩ :=
  ⟨(c4_language_validation [] "auto" "qq").2.1,
   ((c4_language_validation SUPPORTED_LANGUAGES "auto" "fr").2.2.2
     (by decide) (by decide)).1 (by decide),
   (((c4_language_validation SUPPORTED_LANGUAGES "auto" "qq").2.2.2
     (by decide) (by decide)).2 (by decide)).1⟩

/-! ## Claim C5 -/

/-- C5: file-size validation is boundary inclusive — a declared size of
exactly `MAX_FILE_SIZE` (25 MiB = 26214400 bytes) passes, and exactly
`MAX_FILE_SIZE + 1` fails with status 400. -/
theorem c5_size_boundary (fn : String) (content : List Nat)
    (h1 : fn ≠ "") (h2 : file_extension fn ∈ SUPPORTED_AUDIO_FORMATS) :
    MAX_FILE_SIZE = 26214400 ∧
    validate_file ⟨some fn, some MAX_FILE_SIZE, content⟩ = Except.ok () ∧
    errStatus (validate_file ⟨some fn, some (MAX_FILE_SIZE + 1), content⟩) =
      some 400 := by
  refine ⟨rfl, ?_, ?_⟩
  · simp [validate_file, h1, h2]
  · simp [validate_file, h1, h2, errStatus, MAX_FILE_SIZE]

/-- C5 (witness). -/
theorem c5_size_boundary_witness :
    validate_file ⟨some "voice.mp3", some MAX_FILE_SIZE, []⟩ = Except.ok () ∧
    errStatus (validate_file ⟨some "voice.mp3", some (MAX_FILE_SIZE + 1), []⟩) =
      some 400 :=
  ⟨(c5_size_boundary "voice.mp3" [] (by decide) (by decide)).2.1,
   (c5_size_boundary "voice.mp3" [] (by decide) (by decide)).2.2⟩

/-! ## Claim C6 -/

/-- C6: in both provider payloads the `language` key is present iff the
resolved language is not `"auto"`; with `"auto"` it is omitted, and
otherwise it carries exactly the resolved language. -/
theorem c6_payload_language_iff (model language : String) :
    ((groq_transcription_params model language).language.isSome = true ↔
      language ≠ "auto") ∧
    ((openai_transcription_params model language).language.isSome = true ↔
      language ≠ "auto") ∧
    (language = "auto" →
      (groq_transcription_params model language).language = none) ∧
    (language = "auto" →
      (openai_transcription_params model language).language = none) ∧
    (language ≠ "auto" →
      (groq_transcription_params model language).language = some language) ∧
    (language ≠ "auto" →
      (openai_transcription_params model language).language = some language) := by
  by_cases h : language = "auto" <;>
    simp [groq_transcription_params, openai_transcription_params, h]

/-- C6 (witness). -/
theorem c6_payload_language_iff_witness :
    (groq_transcription_params "whisper-large-v3" "auto").language = none ∧
    (openai_transcription_params "whisper-1" "auto").language = none ∧
    (groq_transcription_params "whisper-large-v3" "fr").language = some "fr" ∧
    (openai_transcription_params "whisper-1" "fr").language = some "fr" :=
  ⟨(c6_payload_language_iff "whisper-large-v3" "auto").2.2.1 rfl,
   (c6_payload_language_iff "whisper-1" "auto").2.2.2.1 rfl,
   (c6_payload_language_iff "whisper-large-v3" "fr").2.2.2.2.1 (by decide),
   (c6_payload_language_iff "whisper-1" "fr").2.2.2.2.2 (by decide)⟩

/-! ## Claim C8 -/

/-- C8: on every exit path of `transcribe_audio` a successful unlink
leaves no scratch file behind; a failing unlink leaves the file exactly
when one was created; and the reported outcome (result and dispatch
flag) is identical whether the unlink succeeds or fails. -/
theorem c8_cleanup_every_path (gc oc : Bool) (eg eo el : Option String)
    (dp : Provider) (file : UploadFile) (p : Option Provider)
    (m l : Option String) (call : UpstreamCall) :
    (transcribe_audio gc oc eg eo el dp file p m l call true).scratch_exists =
      false ∧
    (transcribe_audio gc oc eg eo el dp file p m l call false).scratch_exists =
      (transcribe_audio gc oc eg eo el dp file p m l call false).scratch_created ∧
    (transcribe_audio gc oc eg eo el dp file p m l call false).result =
      (transcribe_audio gc oc eg eo el dp file p m l call true).result ∧
    (transcribe_audio gc oc eg eo el dp file p m l call false).dispatched =
      (transcribe_audio gc oc eg eo el dp file p m l call true).dispatched := by
  refine ⟨?_, ?_, rfl, rfl⟩ <;> simp [transcribe_audio]

/-! ## Claim C9 -/

/-- C9: a declared size of `None` or `0` is falsy in
`if file.size and file.size > MAX_FILE_SIZE`, so the size-limit check is
skipped and validation succeeds regardless of the actual byte content. -/
theorem c9_falsy_size_skips_limit (fn : String) (content : List Nat)
    (h1 : fn ≠ "") (h2 : file_extension fn ∈ SUPPORTED_AUDIO_FORMATS) :
    validate_file ⟨some fn, none, content⟩ = Except.ok () ∧
    validate_file ⟨some fn, some 0, content⟩ = Except.ok () := by
  constructor <;> simp [validate_file, h1, h2]

/-- C9 (witness). -/
theorem c9_falsy_size_skips_limit_witness :
    validate_file ⟨some "a.mp3", none, [7, 7, 7, 7]⟩ = Except.ok () ∧
    validate_file ⟨some "a.mp3", some 0, [7, 7, 7, 7]⟩ = Except.ok () :=
  c9_falsy_size_skips_limit "a.mp3" [7, 7, 7, 7] (by decide) (by decide)

/-! ## Claim C3 -/

/-- A provider whose client handle is absent never passes
`validate_provider_and_model`: the result is a 503 error. -/
theorem vpm_client_absent (gc oc : Bool) (eg eo : Option String)
    (p : Provider) (m : Option String)
    (h : clientPresent gc oc p = false) :
    ∃ d, validate_provider_and_model gc oc eg eo p m =
      Except.error ⟨503, d⟩ := by
  cases p <;> cases gc <;> cases oc <;>
    first
      | exact ⟨_, rfl⟩
      | simp [clientPresent] at h

/-- A successful `validate_provider_and_model` returns exactly the
effective model (given model when non-empty, else the default). -/
theorem vpm_ok_eq (gc oc : Bool) (eg eo : Option String) (p : Provider)
    (m : Option String) (sm : String)
    (h : validate_provider_and_model gc oc eg eo p m = Except.ok sm) :
    sm = effective_model eg eo p m := by
  simp only [validate_provider_and_model] at h
  split at h
  · cases h
  · split at h
    · cases h
    · split at h
      · cases h
        rfl
      · cases h

/-- A successful `validate_provider_and_model` implies the provider's
client handle is present. -/
theorem vpm_ok_client (gc oc : Bool) (eg eo : Option String) (p : Provider)
    (m : Option String) (sm : String)
    (h : validate_provider_and_model gc oc eg eo p m = Except.ok sm) :
    clientPresent gc oc p = true := by
  cases p <;> cases gc <;> cases oc <;>
    simp_all [validate_provider_and_model, clientPresent]

/-- With the client present but the effective model outside the catalog,
`validate_provider_and_model` fails with the 400 model error. -/
theorem vpm_model_not_available (gc oc : Bool) (eg eo : Option String)
    (p : Provider) (m : Option String)
    (hcp : clientPresent gc oc p = true)
    (hnm : effective_model eg eo p m ∉ AVAILABLE_MODELS p) :
    validate_provider_and_model gc oc eg eo p m =
      Except.error ⟨400, modelErrorDetail p (effective_model eg eo p m)⟩ := by
  cases p <;> cases gc <;> cases oc <;>
    simp_all [validate_provider_and_model, clientPresent]

/-- C3: with the resolved provider's client absent, `transcribe_audio`
on a file that passes file validation fails with status 503 and never
dispatches; with the client present, the effective model is the given
model when non-empty, else the provider default, and an effective model
outside the provider's catalog fails with status 400 without
dispatching. -/
theorem c3_provider_and_model_gate
    (gc oc : Bool) (eg eo el : Option String) (dp : Provider)
    (file : UploadFile) (p : Option Provider) (m l : Option String)
    (call : UpstreamCall) (u : Bool)
    (hfile : validate_file file = Except.ok ()) :
    (∀ s, s ≠ "" → effective_model eg eo (p.getD dp) (some s) = s) ∧
    (effective_model eg eo (p.getD dp) none =
      DEFAULT_MODELS eg eo (p.getD dp)) ∧
    (∀ sm, validate_provider_and_model gc oc eg eo (p.getD dp) m =
      Except.ok sm → sm = effective_model eg eo (p.getD dp) m) ∧
    (clientPresent gc oc (p.getD dp) = false →
      errStatus (transcribe_audio gc oc eg eo el dp file p m l call u).result =
        some 503 ∧
      (transcribe_audio gc oc eg eo el dp file p m l call u).dispatched =
        false) ∧
    (clientPresent gc oc (p.getD dp) = true →
      effective_model eg eo (p.getD dp) m ∉ AVAILABLE_MODELS (p.getD dp) →
      errStatus (transcribe_audio gc oc eg eo el dp file p m l call u).result =
        some 400 ∧
      (transcribe_audio gc oc eg eo el dp file p m l call u).dispatched =
        false) := by
  refine ⟨fun s hs => by simp [effective_model, hs], rfl,
    fun sm h => vpm_ok_eq gc oc eg eo (p.getD dp) m sm h, ?_, ?_⟩
  · intro hcp
    obtain ⟨d, hvpm⟩ := vpm_client_absent gc oc eg eo (p.getD dp) m hcp
    simp [transcribe_audio, transcribe_body, hfile, hvpm, errStatus]
  · intro hcp hnm
    have hvpm := vpm_model_not_available gc oc eg eo (p.getD dp) m hcp hnm
    simp [transcribe_audio, transcribe_body, hfile, hvpm, errStatus]

/-- C3 (witness). -/
theorem c3_provider_and_model_gate_witness :
    (errStatus (transcribe_audio false true none none none Provider.groq
        ⟨some "voice.mp3", some 4, [1]⟩ none none none
        (Except.ok (.str "x")) true).result = some 503 ∧
      (transcribe_audio false true none none none Provider.groq
        ⟨some "voice.mp3", some 4, [1]⟩ none none none
        (Except.ok (.str "x")) true).dispatched = false) ∧
    (errStatus (transcribe_audio true true none none none Provider.groq
        ⟨some "voice.mp3", some 4, [1]⟩ none (some "bad-model") none
        (Except.ok (.str "x")) true).result = some 400 ∧
      (transcribe_audio true true none none none Provider.groq
        ⟨some "voice.mp3", some 4, [1]⟩ none (some "bad-model") none
        (Except.ok (.str "x")) true).dispatched = false) :=
  ⟨(c3_provider_and_model_gate false true none none none Provider.groq
      ⟨some "voice.mp3", some 4, [1]⟩ none none none
      (Except.ok (.str "x")) true (by decide)).2.2.2.1 (by decide),
   (c3_provider_and_model_gate true true none none none Provider.groq
      ⟨some "voice.mp3", some 4, [1]⟩ none (some "bad-model") none
      (Except.ok (.str "x")) true (by decide)).2.2.2.2 (by decide) (by decide)⟩

/-! ## Claim C7 -/

/-- A transcription whose `strip` is empty post-processes to the
sentinel. -/
theorem post_process_of_strip_empty (t : String) (h : strip t = "") :
    post_process t = NO_CONTENT_SENTINEL := by
  simp only [post_process]
  rw [if_pos (Or.inr h)]
  decide

/-- A transcription whose `strip` is non-empty post-processes to its
stripped text. -/
theorem post_process_of_strip_ne (t : String) (h : strip t ≠ "") :
    post_process t = strip t := by
  have ht : t ≠ "" := by
    rintro rfl
    exact h rfl
  simp only [post_process]
  rw [if_neg]
  rintro (h1 | h2)
  · exact ht h1
  · exact h h2

/-- C7: when the upstream call succeeds with text `t` and every
validation stage passed, `transcribe_audio` succeeds (never errors) with
the post-processed text: the sentinel when `t` is empty or whitespace,
else `t` stripped of surrounding whitespace. -/
theorem c7_whitespace_sentinel
    (gc oc : Bool) (eg eo el : Option String) (dp : Provider)
    (file : UploadFile) (p : Option Provider) (m l : Option String)
    (t : String) (u : Bool) (sm sl : String)
    (hv1 : validate_file file = Except.ok ())
    (hv2 : validate_provider_and_model gc oc eg eo (p.getD dp) m =
      Except.ok sm)
    (hv3 : validate_language SUPPORTED_LANGUAGES (DEFAULT_LANGUAGE el) l =
      Except.ok sl)
    (hc : file.content ≠ []) :
    (transcribe_audio gc oc eg eo el dp file p m l
        (Except.ok (.str t)) u).result =
      Except.ok ⟨post_process t, (p.getD dp).value, sm, sl,
        filename_or_fallback file⟩ ∧
    (strip t = "" → post_process t = NO_CONTENT_SENTINEL) ∧
    (strip t ≠ "" → post_process t = strip t) := by
  refine ⟨?_, post_process_of_strip_empty t, post_process_of_strip_ne t⟩
  have hcp := vpm_ok_client gc oc eg eo (p.getD dp) m sm hv2
  by_cases hp : p.getD dp = Provider.groq
  · have hgc : gc = true := by
      rw [hp] at hcp
      exact hcp
    rw [hp, hgc] at hv2
    simp [transcribe_audio, transcribe_body, hv1, hv2, hv3, hc, hp, hgc,
      transcribe_with_groq]
  · have hop : p.getD dp = Provider.openai := by
      cases hpd : p.getD dp
      · exact absurd hpd hp
      · rfl
    have hoc : oc = true := by
      rw [hop] at hcp
      exact hcp
    rw [hoc] at hv2
    simp [transcribe_audio, transcribe_body, hv1, hv2, hv3, hc, hp, hoc,
      transcribe_with_openai]

/-- C7 (witness). -/
theorem c7_whitespace_sentinel_witness :
    (transcribe_audio true true none none none Provider.groq
        ⟨some "voice.mp3", some 4, [1]⟩ none none none
        (Except.ok (.str "  ")) true).result =
      Except.ok ⟨post_process "  ", Provider.groq.value,
        "whisper-large-v3-turbo", "auto", "voice.mp3"⟩ ∧
    post_process "  " = NO_CONTENT_SENTINEL :=
  ⟨(c7_whitespace_sentinel true true none none none Provider.groq
      ⟨some "voice.mp3", some 4, [1]⟩ none none none "  " true
      "whisper-large-v3-turbo" "auto" (by decide) (by decide) (by decide)
      (by decide)).1,
   (c7_whitespace_sentinel true true none none none Provider.groq
      ⟨some "voice.mp3", some 4, [1]⟩ none none none "  " true
      "whisper-large-v3-turbo" "auto" (by decide) (by decide) (by decide)
      (by decide)).2.1 (by decide)⟩

/-! ## Claim C10 -/

/-- `splitOnChar` never returns the empty list. -/
theorem splitOnChar_ne_nil (c : Char) (l : List Char) : splitOnChar c l ≠ [] := by
  induction l with
  | nil => simp [splitOnChar]
  | cons x xs ih =>
    simp only [splitOnChar]
    split
    · simp
    · split
      · simp
      · simp

/-- Splitting a list free of the separator yields the singleton list. -/
theorem splitOnChar_eq_of_not_mem (c : Char) (l : List Char) (h : c ∉ l) :
    splitOnChar c l = [l] := by
  induction l with
  | nil => rfl
  | cons x xs ih =>
    have hx : ¬ x = c := fun hxc => h (hxc ▸ List.mem_cons_self x xs)
    have hxs : c ∉ xs := fun hm => h (List.mem_cons_of_mem x hm)
    simp [splitOnChar, if_neg hx, ih hxs]

/-- Splitting a list that contains the separator yields at least two
pieces. -/
theorem splitOnChar_sep_two_le (c : Char) (a b : List Char) :
    2 ≤ (splitOnChar c (a ++ c :: b)).length := by
  induction a with
  | nil =>
    have hb := splitOnChar_ne_nil c b
    have hpos := List.length_pos.mpr hb
    simp [splitOnChar]
    omega
  | cons x a' ih =>
    simp only [List.cons_append, splitOnChar]
    by_cases hx : x = c
    · rw [if_pos hx]
      simp only [List.length_cons]
      exact le_trans ih (Nat.le_succ _)
    · rw [if_neg hx]
      cases hh : splitOnChar c (a' ++ c :: b) with
      | nil => exact absurd hh (splitOnChar_ne_nil c _)
      | cons y ys =>
        rw [hh] at ih
        show 2 ≤ ((x :: y) :: ys).length
        simp only [List.length_cons] at ih ⊢
        omega

/-- The last piece of a split at the final separator occurrence is the
tail after that separator. -/
theorem splitOnChar_getLast_sep (c : Char) (a b : List Char) (hb : c ∉ b) :
    (splitOnChar c (a ++ c :: b)).getLast? = some b := by
  induction a with
  | nil =>
    simp [splitOnChar, splitOnChar_eq_of_not_mem c b hb]
  | cons x a' ih =>
    simp only [List.cons_append, splitOnChar]
    by_cases hx : x = c
    · rw [if_pos hx]
      cases hh : splitOnChar c (a' ++ c :: b) with
      | nil => exact absurd hh (splitOnChar_ne_nil c _)
      | cons y ys =>
        rw [hh] at ih
        rw [List.getLast?_cons_cons]
        exact ih
    · rw [if_neg hx]
      have hlen := splitOnChar_sep_two_le c a' b
      cases hh : splitOnChar c (a' ++ c :: b) with
      | nil => exact absurd hh (splitOnChar_ne_nil c _)
      | cons y ys =>
        rw [hh] at ih hlen
        show ((x :: y) :: ys).getLast? = some b
        cases ys with
        | nil => simp at hlen
        | cons z zs =>
          simp only [List.getLast?_cons_cons] at ih ⊢
          exact ih

/-- C10: the extension checked by format validation is the lowercased
segment after the last `.`; a filename without any `.` is lowercased and
checked whole, so the dotless filename `"mp3"` passes format (and file)
validation. -/
theorem c10_extension_rule (a b l : List Char)
    (hb : ('.' : Char) ∉ b) (hl : ('.' : Char) ∉ l) :
    file_extension (String.mk (a ++ '.' :: b)) = strLower (String.mk b) ∧
    file_extension (String.mk l) = strLower (String.mk l) ∧
    validate_file ⟨some "mp3", none, []⟩ = Except.ok () := by
  refine ⟨?_, ?_, by decide⟩
  · show strLower (String.mk ((splitOnChar '.' (a ++ '.' :: b)).getLastD [])) =
      strLower (String.mk b)
    rw [List.getLastD_eq_getLast?, splitOnChar_getLast_sep '.' a b hb]
    rfl
  · show strLower (String.mk ((splitOnChar '.' l).getLastD [])) =
      strLower (String.mk l)
    rw [splitOnChar_eq_of_not_mem '.' l hl]
    rfl

/-- C10 (witness). -/
theorem c10_extension_rule_witness :
    file_extension
        (String.mk (['v', 'o', 'i', 'c', 'e'] ++ '.' :: ['M', 'P', '3'])) =
      strLower (String.mk ['M', 'P', '3']) ∧
    file_extension (String.mk ['o', 'g', 'g']) =
      strLower (String.mk ['o', 'g', 'g']) ∧
    validate_file ⟨some "mp3", none, []⟩ = Except.ok () :=
  c10_extension_rule ['v', 'o', 'i', 'c', 'e'] ['M', 'P', '3'] ['o', 'g', 'g']
    (by decide) (by decide)

end Transcribe
